import Mathlib

/-!
Verification development for the pupil-pal student-roster application.

The embedding models:
* the SQL migration (tables `profiles` and `alunos`, their row-level
  security policies, the `update_updated_at_column` trigger and the
  `handle_new_user` provisioning trigger);
* the zod validation schema and submit handler of `AlunoForm.tsx`;
* the fetch/create/update/delete handlers and the client-side search
  filter of `AlunosList.tsx`.

UUIDs and timestamps are modelled as `Nat`; text columns as `String`.
The database is a list of rows; a statement either succeeds with the new
table contents or fails with a `StoreError`.
-/

/-! ## JavaScript string primitives

Lean's built-in `String.trim`/`String.toLower` are defined through
`Substring` byte positions and do not reduce well in the kernel, so the
JS string operations used by the components (`trim`, `toLowerCase`,
`includes`) are modelled directly over the character list. -/

/-- Model of JS `String.prototype.trim`: strip whitespace from both ends. -/
def jsTrim (s : String) : String :=
  ⟨((s.data.dropWhile Char.isWhitespace).reverse.dropWhile Char.isWhitespace).reverse⟩

/-- Model of JS `String.prototype.toLowerCase` (ASCII range, which is all
the source compares). -/
def jsToLower (s : String) : String :=
  ⟨s.data.map Char.toLower⟩

/-- `startsWithList l p` is true iff `p` is a leading segment of `l`. -/
def startsWithList : List Char → List Char → Bool
  | _, [] => true
  | [], _ :: _ => false
  | a :: as, b :: bs => a == b && startsWithList as bs

/-- `containsSub needle hay` is true iff `needle` occurs contiguously in
`hay`; model of JS `String.prototype.includes`. -/
def containsSub (needle : List Char) : List Char → Bool
  | [] => needle.isEmpty
  | c :: rest => startsWithList (c :: rest) needle || containsSub needle rest

/-- JS `hay.includes(needle)`. -/
def jsIncludes (hay needle : String) : Bool :=
  containsSub needle.data hay.data

/-! ## The zod email validator

`alunoSchema` uses `z.string().trim().email(...)`.  zod's `.email()`
check is the anchored regular expression
`(?!\.)(?!.*\.\.)([A-Za-z0-9_'+\-\.]*)[A-Za-z0-9_+-]@([A-Za-z0-9][A-Za-z0-9\-]*\.)+[A-Za-z]{2,}`:
a non-empty local part over a fixed character set that does not start
with a dot, contains no two consecutive dots and does not end in a dot
or apostrophe, one `@`, then one or more alphanumeric-and-hyphen domain
labels and a purely alphabetic top-level domain of length at least 2. -/

/-- Characters the local part may contain. -/
def isEmailLocalChar (c : Char) : Bool :=
  c.isAlphanum || c == '_' || c == Char.ofNat 39 || c == '+' || c == '-' || c == '.'

/-- Characters the local part may end with (no dot, no apostrophe). -/
def isEmailLocalEnd (c : Char) : Bool :=
  c.isAlphanum || c == '_' || c == '+' || c == '-'

/-- No two consecutive dots anywhere in the list. -/
def noDoubleDot : List Char → Bool
  | [] => true
  | [_] => true
  | a :: b :: rest => !(a == '.' && b == '.') && noDoubleDot (b :: rest)

/-- One domain label before a dot: alphanumeric first character, then
alphanumeric or hyphen. -/
def emailLabelOk : List Char → Bool
  | [] => false
  | c :: rest => c.isAlphanum && rest.all (fun d => d.isAlphanum || d == '-')

/-- The final label: at least two characters, all alphabetic. -/
def emailTldOk (l : List Char) : Bool :=
  decide (2 ≤ l.length) && l.all Char.isAlpha

/-- The domain side of the `@`: at least one ordinary label, then the
top-level domain. -/
def emailDomainOk (d : List Char) : Bool :=
  let parts := d.splitOn '.'
  decide (2 ≤ parts.length) && parts.dropLast.all emailLabelOk &&
    (match parts.getLast? with
     | some t => emailTldOk t
     | none => false)

/-- The local side of the `@`. -/
def emailLocalOk (l : List Char) : Bool :=
  match l with
  | [] => false
  | c :: _ => !(c == '.') && l.all isEmailLocalChar &&
      (match l.getLast? with
       | some e => isEmailLocalEnd e
       | none => false)

/-- zod's `.email()` check on a string. -/
def zodEmailCheck (s : String) : Bool :=
  noDoubleDot s.data &&
    (match s.data.splitOn '@' with
     | [l, d] => emailLocalOk l && emailDomainOk d
     | _ => false)

/-! ## Data model: the `alunos` table

From the migration: `id UUID PRIMARY KEY`, `nome TEXT NOT NULL`,
`email TEXT NOT NULL UNIQUE`, `data_nascimento DATE NOT NULL`,
`created_by UUID NOT NULL`, `created_at`/`updated_at` timestamps. -/

structure Aluno where
  id : Nat
  nome : String
  email : String
  data_nascimento : String
  created_by : Nat
  created_at : Nat
  updated_at : Nat
deriving DecidableEq

/-- Errors a statement against the store can surface to the client:
a row-level-security rejection or a unique-constraint violation. -/
inductive StoreError where
  | rlsViolation
  | uniqueViolation
deriving DecidableEq

/-- Policy "Users can view their own alunos": `USING (auth.uid() = created_by)`. -/
def alunosSelectUsing (uid : Nat) (r : Aluno) : Bool := uid == r.created_by

/-- Policy "Users can create their own alunos": `WITH CHECK (auth.uid() = created_by)`. -/
def alunosInsertCheck (uid : Nat) (r : Aluno) : Bool := uid == r.created_by

/-- Policy "Users can update their own alunos": `USING (auth.uid() = created_by)`. -/
def alunosUpdateUsing (uid : Nat) (r : Aluno) : Bool := uid == r.created_by

/-- Policy "Users can delete their own alunos": `USING (auth.uid() = created_by)`. -/
def alunosDeleteUsing (uid : Nat) (r : Aluno) : Bool := uid == r.created_by

/-- The SET clause a client may send with `UPDATE alunos`: PostgREST
accepts any subset of columns, so a client is free to attempt to write
`updated_at` or `created_by` as well. -/
structure AlunoUpdate where
  nome : Option String := none
  email : Option String := none
  data_nascimento : Option String := none
  created_by : Option Nat := none
  updated_at : Option Nat := none
deriving DecidableEq

/-- Apply the SET clause to a row, forming the candidate NEW row. -/
def applySet (p : AlunoUpdate) (r : Aluno) : Aluno :=
  { r with
    nome := p.nome.getD r.nome
    email := p.email.getD r.email
    data_nascimento := p.data_nascimento.getD r.data_nascimento
    created_by := p.created_by.getD r.created_by
    updated_at := p.updated_at.getD r.updated_at }

/-- Trigger function `update_updated_at_column`: `NEW.updated_at = now()`
on the NEW row, before it is written. -/
def update_updated_at_column (now : Nat) (r : Aluno) : Aluno :=
  { r with updated_at := now }

/-- The full per-row effect of `UPDATE alunos SET ...`: the SET clause is
applied, then the BEFORE UPDATE trigger `update_alunos_updated_at`
overwrites `updated_at` with the server clock. -/
def updateRow (now : Nat) (p : AlunoUpdate) (r : Aluno) : Aluno :=
  update_updated_at_column now (applySet p r)

/-- Whether an `UPDATE ... WHERE id = tid` issued by `uid` touches row
`r`: the WHERE clause and the UPDATE policy's USING clause must both
hold; rows failing either are silently skipped. -/
def updateHit (uid tid : Nat) (r : Aluno) : Bool :=
  r.id == tid && alunosUpdateUsing uid r

/-- Whether a `DELETE ... WHERE id = tid` issued by `uid` removes row `r`. -/
def deleteHit (uid tid : Nat) (r : Aluno) : Bool :=
  r.id == tid && alunosDeleteUsing uid r

/-- The UNIQUE constraint on `alunos.email`: all emails in the table are
pairwise distinct. -/
def emailsNodup : List Aluno → Bool
  | [] => true
  | a :: rest => !(rest.any (fun b => b.email == a.email)) && emailsNodup rest

/-- `SELECT * FROM alunos` under row-level security: only rows passing
the SELECT policy's USING clause are visible. -/
def alunosSelect (uid : Nat) (db : List Aluno) : List Aluno :=
  db.filter (alunosSelectUsing uid)

/-- `ORDER BY created_at DESC` (later creation time first). -/
def orderByCreatedAtDesc (l : List Aluno) : List Aluno :=
  List.insertionSort (fun x y => y.created_at ≤ x.created_at) l

/-- `fetchAlunos` in `AlunosList.tsx`:
`supabase.from('alunos').select('*').order('created_at', { ascending: false })`. -/
def fetchAlunos (uid : Nat) (db : List Aluno) : List Aluno :=
  orderByCreatedAtDesc (alunosSelect uid db)

/-- The row an `INSERT INTO alunos` supplies (what `handleCreate` sends:
the three form fields plus `created_by`); `id`, `created_at` and
`updated_at` come from column defaults. -/
structure AlunoInsert where
  nome : String
  email : String
  data_nascimento : String
  created_by : Nat
deriving DecidableEq

/-- `INSERT INTO alunos`: the INSERT policy's WITH CHECK clause is
enforced on the new row (violation is an error, not a filter), then the
UNIQUE email constraint is checked against the whole table. -/
def alunosInsert (uid now newId : Nat) (p : AlunoInsert) (db : List Aluno) :
    Except StoreError (List Aluno) :=
  let row : Aluno :=
    { id := newId, nome := p.nome, email := p.email,
      data_nascimento := p.data_nascimento, created_by := p.created_by,
      created_at := now, updated_at := now }
  if !alunosInsertCheck uid row then .error .rlsViolation
  else if db.any (fun r => r.email == row.email) then .error .uniqueViolation
  else .ok (db ++ [row])

/-- `UPDATE alunos SET ... WHERE id = tid` issued by `uid`: rows not
passing the USING clause are silently filtered out of the statement; on
each touched row the SET clause and the timestamp trigger run, the
(defaulted) WITH CHECK clause is enforced on the written row, and the
UNIQUE email constraint is checked.  Returns the new table and the
number of rows the statement matched. -/
def alunosUpdate (uid now tid : Nat) (p : AlunoUpdate) (db : List Aluno) :
    Except StoreError (List Aluno × Nat) :=
  let matched := db.filter (updateHit uid tid)
  let db2 := db.map (fun r => if updateHit uid tid r then updateRow now p r else r)
  if matched.any (fun r => !alunosUpdateUsing uid (updateRow now p r)) then
    .error .rlsViolation
  else if emailsNodup db2 then .ok (db2, matched.length)
  else .error .uniqueViolation

/-- `DELETE FROM alunos WHERE id = tid` issued by `uid`: rows not passing
the USING clause are silently retained; no error is possible.  Returns
the new table and the number of rows removed. -/
def alunosDelete (uid tid : Nat) (db : List Aluno) : List Aluno × Nat :=
  (db.filter (fun r => !deleteHit uid tid r), (db.filter (deleteHit uid tid)).length)

/-! ## The `profiles` table and the provisioning trigger

From the migration: `profiles(id UUID PRIMARY KEY REFERENCES auth.users
ON DELETE CASCADE, email TEXT NOT NULL, created_at ...)`, and the
trigger `on_auth_user_created` running `handle_new_user` once for each
row inserted into `auth.users`, inside the same transaction. -/

structure Profile where
  id : Nat
  email : String
  created_at : Nat
deriving DecidableEq

structure AuthUser where
  id : Nat
  email : String
deriving DecidableEq

structure DBState where
  users : List AuthUser
  profiles : List Profile
deriving DecidableEq

/-- Trigger function `handle_new_user`: `INSERT INTO public.profiles
(id, email) VALUES (new.id, new.email)`; the PRIMARY KEY on `id` makes
a second profile for the same identity a constraint violation. -/
def handle_new_user (now : Nat) (u : AuthUser) (profiles : List Profile) :
    Except StoreError (List Profile) :=
  if profiles.any (fun p => p.id == u.id) then .error .uniqueViolation
  else .ok (profiles ++ [{ id := u.id, email := u.email, created_at := now }])

/-- One identity-creation event: the row is inserted into `auth.users`
(unique id), then the AFTER INSERT trigger `on_auth_user_created` runs
`handle_new_user` in the same transaction; if either step fails the
whole transaction aborts and no state change survives. -/
def createAuthUser (now : Nat) (u : AuthUser) (st : DBState) :
    Except StoreError DBState :=
  if st.users.any (fun v => v.id == u.id) then .error .uniqueViolation
  else
    match handle_new_user now u st.profiles with
    | .error e => .error e
    | .ok ps => .ok { users := st.users ++ [u], profiles := ps }

/-- The profiles paired with a given identity. -/
def profilesOf (uid : Nat) (st : DBState) : List Profile :=
  st.profiles.filter (fun p => p.id == uid)

/-- The pairing invariant: every identity has exactly one profile. -/
def profilesInv (st : DBState) : Prop :=
  ∀ u ∈ st.users, (profilesOf u.id st).length = 1

/-! ## The record form (`AlunoForm.tsx`) -/

/-- The three controlled inputs of the form. -/
structure FormInput where
  nome : String
  email : String
  data_nascimento : String
deriving DecidableEq

/-- The payload `handleSubmit` passes to `onSubmit`. -/
structure SubmitData where
  nome : String
  email : String
  data_nascimento : String
deriving DecidableEq

/-- The issues `alunoSchema.safeParse` reports, in schema order:
`nome: z.string().trim().min(1, "Nome é obrigatório").max(100, "Nome muito longo")`,
`email: z.string().trim().email("Email inválido")`,
`data_nascimento: z.string().min(1, "Data de nascimento é obrigatória")`.
Each pair is the issue's path head and message; the trim transforms run
before the checks on their field. -/
def alunoSchemaIssues (i : FormInput) : List (String × String) :=
  ((if (jsTrim i.nome).length < 1 then [("nome", "Nome é obrigatório")] else []) ++
   (if 100 < (jsTrim i.nome).length then [("nome", "Nome muito longo")] else [])) ++
  (if zodEmailCheck (jsTrim i.email) then [] else [("email", "Email inválido")]) ++
  (if i.data_nascimento.length < 1 then
    [("data_nascimento", "Data de nascimento é obrigatória")] else [])

/-- `validateForm`: parse, and on failure build the per-field error map
(`newErrors[error.path[0]] = error.message`).  Returns whether parsing
succeeded together with the error entries. -/
def validateForm (i : FormInput) : Bool × List (String × String) :=
  let issues := alunoSchemaIssues i
  (issues.isEmpty, issues)

/-- Observable outcome of one `handleSubmit` run: the payload handed to
`onSubmit` (`none` when validation failed and no request was issued),
the field errors, and whether the dialog is still open afterwards. -/
structure SubmitOutcome where
  request : Option SubmitData
  errors : List (String × String)
  formOpen : Bool
deriving DecidableEq

/-- `handleSubmit` in `AlunoForm.tsx`.  On validation failure it returns
before submitting, leaving the dialog open.  Otherwise it awaits
`onSubmit` with the trimmed name/email and then calls
`onOpenChange(false)` unconditionally — the resolution value of the
submit callback (`res`) is not consulted, so the dialog closes whether
the request succeeded or failed. -/
def handleSubmit (i : FormInput) (res : Except StoreError Unit) : SubmitOutcome :=
  match validateForm i with
  | (false, errs) => { request := none, errors := errs, formOpen := true }
  | (true, _) =>
      match res with
      | _ =>
        { request := some { nome := jsTrim i.nome, email := jsTrim i.email,
                            data_nascimento := i.data_nascimento }
          errors := []
          formOpen := false }

/-! ## The list view (`AlunosList.tsx`) -/

/-- A toast notification (`variant: 'destructive'` marks failures). -/
structure Toast where
  destructive : Bool
  title : String
deriving DecidableEq

/-- The view state the handlers touch: the in-memory `alunos` array and
the last toast raised. -/
structure ViewState where
  alunos : List Aluno
  toast : Option Toast
deriving DecidableEq

/-- The search-filter effect: when `searchTerm` is truthy (non-empty),
keep the alunos whose lowercased name or email includes the lowercased
term; otherwise show the full set.  Pure — no request is issued. -/
def filterAlunos (searchTerm : String) (alunos : List Aluno) : List Aluno :=
  if searchTerm ≠ "" then
    alunos.filter (fun a =>
      jsIncludes (jsToLower a.nome) (jsToLower searchTerm) ||
      jsIncludes (jsToLower a.email) (jsToLower searchTerm))
  else alunos

/-- `handleCreate`: insert `{...data, created_by: user.id}`; on success
toast "Aluno criado!" and re-fetch, on error toast the failure
destructively and leave the list as it was.  Returns the store contents
and the view state after the handler finishes. -/
def handleCreate (uid now newId : Nat) (d : SubmitData) (db : List Aluno)
    (vs : ViewState) : List Aluno × ViewState :=
  match alunosInsert uid now newId
      { nome := d.nome, email := d.email,
        data_nascimento := d.data_nascimento, created_by := uid } db with
  | .ok db2 =>
      (db2, { alunos := fetchAlunos uid db2,
              toast := some { destructive := false, title := "Aluno criado!" } })
  | .error _ =>
      (db, { vs with
              toast := some { destructive := true, title := "Erro ao criar aluno" } })

/-- The SET clause `handleUpdate` sends: exactly the three form fields. -/
def clientUpdatePayload (d : SubmitData) : AlunoUpdate :=
  { nome := some d.nome, email := some d.email,
    data_nascimento := some d.data_nascimento }

/-- `handleUpdate`: `update(data).eq('id', editingAluno.id)`; on success
toast "Aluno atualizado!" and re-fetch, on error toast destructively and
leave the list as it was. -/
def handleUpdate (uid now tid : Nat) (d : SubmitData) (db : List Aluno)
    (vs : ViewState) : List Aluno × ViewState :=
  match alunosUpdate uid now tid (clientUpdatePayload d) db with
  | .ok (db2, _) =>
      (db2, { alunos := fetchAlunos uid db2,
              toast := some { destructive := false, title := "Aluno atualizado!" } })
  | .error _ =>
      (db, { vs with
              toast := some { destructive := true, title := "Erro ao atualizar aluno" } })

/-- `handleDelete`: `delete().eq('id', alunoToDelete)`; a delete never
errors at the store (non-owned rows are silently filtered), so the
handler always toasts success and re-fetches. -/
def handleDelete (uid tid : Nat) (db : List Aluno) : List Aluno × ViewState :=
  let r := alunosDelete uid tid db
  (r.1, { alunos := fetchAlunos uid r.1,
          toast := some { destructive := false, title := "Aluno excluído" } })

deriving instance DecidableEq for Except

/-! ## Helper lemmas -/

/-- `startsWithList l p` holds exactly when `p` is a leading segment of `l`. -/
theorem startsWithList_iff (p l : List Char) :
    startsWithList l p = true ↔ ∃ t, l = p ++ t := by
  induction p generalizing l with
  | nil =>
    simp [startsWithList]
  | cons b bs ih =>
    cases l with
    | nil => simp [startsWithList]
    | cons a as =>
      simp only [startsWithList, Bool.and_eq_true, beq_iff_eq, ih, List.cons_append,
        List.cons.injEq]
      constructor
      · rintro ⟨rfl, t, rfl⟩
        exact ⟨t, rfl, rfl⟩
      · rintro ⟨t, rfl, rfl⟩
        exact ⟨rfl, t, rfl⟩

/-- `containsSub p l` holds exactly when `p` occurs contiguously in `l`. -/
theorem containsSub_iff (p l : List Char) :
    containsSub p l = true ↔ ∃ u v, l = u ++ p ++ v := by
  induction l with
  | nil =>
    simp only [containsSub, List.isEmpty_iff]
    constructor
    · rintro rfl
      exact ⟨[], [], rfl⟩
    · rintro ⟨u, v, h⟩
      rcases List.append_eq_nil.mp (List.append_eq_nil.mp h.symm).1 with ⟨-, h2⟩
      exact h2
  | cons c rest ih =>
    simp only [containsSub, Bool.or_eq_true, startsWithList_iff, ih]
    constructor
    · rintro (⟨t, ht⟩ | ⟨u, v, h⟩)
      · exact ⟨[], t, by simpa using ht⟩
      · exact ⟨c :: u, v, by simp [h]⟩
    · rintro ⟨u, v, h⟩
      cases u with
      | nil =>
        left
        exact ⟨v, by simpa using h⟩
      | cons x us =>
        right
        rcases List.cons.injEq .. ▸ h with ⟨rfl, h2⟩
        exact ⟨us, v, h2⟩

/-- Mapping a guarded rewrite over rows none of which are hit leaves the
table unchanged. -/
theorem map_if_no_hit {α : Type} {h : α → Bool} {g : α → α} {db : List α}
    (hh : ∀ r ∈ db, h r = false) :
    db.map (fun r => if h r then g r else r) = db := by
  induction db with
  | nil => rfl
  | cons a rest ih =>
    have h1 : h a = false := hh a (List.mem_cons_self a rest)
    simp [h1, ih (fun r hr => hh r (List.mem_cons_of_mem a hr))]

/-- Shape of a successful `UPDATE` statement: the new table is the
row-wise rewrite and the count is the number of policy-visible matches. -/
theorem alunosUpdate_ok (uid now tid : Nat) (p : AlunoUpdate) (db db2 : List Aluno)
    (n : Nat) (h : alunosUpdate uid now tid p db = .ok (db2, n)) :
    db2 = db.map (fun r => if updateHit uid tid r then updateRow now p r else r) ∧
    n = (db.filter (updateHit uid tid)).length := by
  unfold alunosUpdate at h
  dsimp only at h
  split at h
  · exact absurd h (by simp)
  · split at h
    · simp only [Except.ok.injEq, Prod.mk.injEq] at h
      exact ⟨h.1.symm, h.2.symm⟩
    · exact absurd h (by simp)

/-- A cross-owner `INSERT` violates the INSERT policy's WITH CHECK
clause and is rejected as an error. -/
theorem alunosInsert_cross_owner (b now newId : Nat) (q : AlunoInsert)
    (db : List Aluno) (h : b ≠ q.created_by) :
    alunosInsert b now newId q db = .error .rlsViolation := by
  simp [alunosInsert, alunosInsertCheck, beq_eq_false_iff_ne, h]

/-! ## Sample data shared by the concrete instances -/

/-- A record created by identity 1. -/
def rAna : Aluno :=
  { id := 10, nome := "Ana", email := "ana@x.io", data_nascimento := "2000-01-01",
    created_by := 1, created_at := 5, updated_at := 5 }

/-- A second record created by identity 1, created later. -/
def rBruno : Aluno :=
  { id := 11, nome := "Bruno", email := "bruno@y.io", data_nascimento := "2001-02-02",
    created_by := 1, created_at := 6, updated_at := 6 }

/-- A view state holding the list `[rAna]`. -/
def viewAna : ViewState := { alunos := [rAna], toast := none }

/-- A form payload whose email duplicates `rAna`'s. -/
def dupData : SubmitData :=
  { nome := "Clara", email := "ana@x.io", data_nascimento := "2002-03-03" }

/-- The form input that produces `dupData`. -/
def dupInput : FormInput :=
  { nome := "Clara", email := "ana@x.io", data_nascimento := "2002-03-03" }

/-- An edit payload used for cross-owner update attempts. -/
def editData : SubmitData :=
  { nome := "X", email := "x@x.io", data_nascimento := "1999-01-01" }

/-! ## Claims -/

/-- Claim C1: for distinct identities A and B, a row whose `created_by`
is A is never returned by B's select, never matched by B's update and
never matched by B's delete (it survives both, unchanged), and all four
policies gate on the caller's identity equalling `created_by` — in
particular B cannot insert a row attributed to A. -/
theorem c1_ownership_isolation
    (a b now tid : Nat) (p : AlunoUpdate) (r : Aluno) (db : List Aluno)
    (hab : a ≠ b) (hr : r ∈ db) (hown : r.created_by = a) :
    r ∉ alunosSelect b db ∧
    updateHit b tid r = false ∧
    (∀ db2 n, alunosUpdate b now tid p db = .ok (db2, n) → r ∈ db2) ∧
    deleteHit b tid r = false ∧
    r ∈ (alunosDelete b tid db).1 ∧
    (∀ q : AlunoInsert, q.created_by = a → ∀ newId,
      alunosInsert b now newId q db = .error .rlsViolation) := by
  have hba : (b == r.created_by) = false :=
    beq_eq_false_iff_ne.mpr (fun hba => hab (hown ▸ hba.symm))
  have hup : updateHit b tid r = false := by
    simp [updateHit, alunosUpdateUsing, hba]
  have hdel : deleteHit b tid r = false := by
    simp [deleteHit, alunosDeleteUsing, hba]
  refine ⟨?_, hup, ?_, hdel, ?_, ?_⟩
  · simp [alunosSelect, alunosSelectUsing, List.mem_filter, hba]
  · intro db2 n h
    rcases alunosUpdate_ok b now tid p db db2 n h with ⟨hdb2, -⟩
    subst hdb2
    exact List.mem_map.mpr ⟨r, hr, by simp [hup]⟩
  · exact List.mem_filter.mpr ⟨hr, by simp [hdel]⟩
  · intro q hq newId
    exact alunosInsert_cross_owner b now newId q db
      (fun hbq => hab (hq ▸ hbq.symm))

/-- Claim C1 witness: identity 2 cannot see, match or touch the record
of identity 1, and cannot insert a record attributed to identity 1. -/
theorem c1_ownership_isolation_witness :
    rAna ∉ alunosSelect 2 [rAna] ∧
    rAna ∈ (alunosDelete 2 10 [rAna]).1 := by
  have h := c1_ownership_isolation 1 2 7 10 (clientUpdatePayload editData) rAna [rAna]
    (by decide) (by decide) (by decide)
  exact ⟨h.1, h.2.2.2.2.1⟩

/-- Claim C2 counterexample: identity 2's update and delete against the
record created by identity 1 are NOT rejected as errors at the store
boundary — they succeed with zero rows matched (silent filtering), and
the view layer even reports the update as a success. -/
theorem c2_counterexample :
    alunosUpdate 2 7 10 (clientUpdatePayload editData) [rAna] = .ok ([rAna], 0) ∧
    alunosDelete 2 10 [rAna] = ([rAna], 0) ∧
    (handleUpdate 2 7 10 editData [rAna] viewAna).2.toast =
      some { destructive := false, title := "Aluno atualizado!" } := by
  decide

/-- Claim C2 amended: a request violating the ownership policy is
rejected with an error only for INSERT (`WITH CHECK`); an UPDATE or
DELETE issued against rows the caller does not own is silently filtered
to a zero-row no-op — the store reports success with zero rows matched
and the table is unchanged, so the caller cannot distinguish it from a
not-found. -/
theorem c2_amended_silent_filtering
    (a b now tid : Nat) (p : AlunoUpdate) (db : List Aluno)
    (hab : a ≠ b) (hown : ∀ r ∈ db, r.id = tid → r.created_by = a)
    (hnodup : emailsNodup db = true) :
    alunosUpdate b now tid p db = .ok (db, 0) ∧
    alunosDelete b tid db = (db, 0) ∧
    (∀ q : AlunoInsert, q.created_by = a → ∀ newId,
      alunosInsert b now newId q db = .error .rlsViolation) := by
  have hhit : ∀ r ∈ db, (r.id == tid && (b == r.created_by)) = false := by
    intro r hrdb
    by_cases hid : r.id = tid
    · have : (b == r.created_by) = false :=
        beq_eq_false_iff_ne.mpr (fun hbr => hab ((hown r hrdb hid) ▸ hbr.symm))
      simp [this]
    · simp [hid]
  have hupd : ∀ r ∈ db, updateHit b tid r = false := by
    intro r hrdb; simpa [updateHit, alunosUpdateUsing] using hhit r hrdb
  have hdel : ∀ r ∈ db, deleteHit b tid r = false := by
    intro r hrdb; simpa [deleteHit, alunosDeleteUsing] using hhit r hrdb
  have hmatched : db.filter (updateHit b tid) = [] :=
    List.filter_eq_nil_iff.mpr (fun r hr => by simp [hupd r hr])
  have hmap : db.map (fun r => if updateHit b tid r then updateRow now p r else r) = db :=
    map_if_no_hit hupd
  refine ⟨?_, ?_, ?_⟩
  · unfold alunosUpdate
    dsimp only
    rw [hmatched, hmap]
    simp [hnodup]
  · unfold alunosDelete
    rw [List.filter_eq_self.mpr (fun r hr => by simp [hdel r hr]),
      List.filter_eq_nil_iff.mpr (fun r hr => by simp [hdel r hr])]
    rfl
  · intro q hq newId
    exact alunosInsert_cross_owner b now newId q db
      (fun hbq => hab (hq ▸ hbq.symm))

/-- Claim C2 amended witness: the concrete cross-owner update, delete
and insert attempts of identity 2 against identity 1's data. -/
theorem c2_amended_silent_filtering_witness :
    alunosUpdate 2 7 10 (clientUpdatePayload editData) [rAna] = .ok ([rAna], 0) ∧
    alunosInsert 2 7 12
      { nome := "Eve", email := "eve@z.io", data_nascimento := "1990-01-01",
        created_by := 1 } [rAna] = .error .rlsViolation := by
  have h := c2_amended_silent_filtering 1 2 7 10 (clientUpdatePayload editData) [rAna]
    (by decide) (by decide) (by decide)
  exact ⟨h.1, h.2.2
    { nome := "Eve", email := "eve@z.io", data_nascimento := "1990-01-01",
      created_by := 1 } rfl 12⟩

/-- Claim C5: on every update the stored `updated_at` is overwritten
server-side with the current time, whatever the client put in the SET
clause (including a forged `updated_at`); hence the new value is ≥ the
previous one whenever the clock has not gone backwards, and strictly
greater under a strictly advanced clock.  Every row of the table after a
successful UPDATE statement is either an untouched row of the old table
or carries `updated_at = now`. -/
theorem c5_updated_at_server_side
    (now : Nat) (p : AlunoUpdate) (r : Aluno) :
    (updateRow now p r).updated_at = now ∧
    (r.updated_at ≤ now → r.updated_at ≤ (updateRow now p r).updated_at) ∧
    (r.updated_at < now → r.updated_at < (updateRow now p r).updated_at) ∧
    (∀ uid tid db db2 n, alunosUpdate uid now tid p db = .ok (db2, n) →
      ∀ x ∈ db2, x ∈ db ∨ x.updated_at = now) := by
  refine ⟨rfl, fun h => h, fun h => h, ?_⟩
  intro uid tid db db2 n h x hx
  rcases alunosUpdate_ok uid now tid p db db2 n h with ⟨hdb2, -⟩
  subst hdb2
  rcases List.mem_map.mp hx with ⟨y, hy, hxy⟩
  by_cases hhit : updateHit uid tid y = true
  · right
    rw [← hxy]
    simp [hhit, updateRow, update_updated_at_column]
  · left
    rw [← hxy]
    simpa [hhit] using hy

/-- Claim C5 witness: a client sending the forged value `updated_at = 3`
still ends up with the server clock 9, which strictly advances the
previous timestamp 5. -/
theorem c5_updated_at_server_side_witness :
    (updateRow 9 { updated_at := some 3 } rAna).updated_at = 9 ∧
    rAna.updated_at < (updateRow 9 { updated_at := some 3 } rAna).updated_at := by
  have h := c5_updated_at_server_side 9 { updated_at := some 3 } rAna
  exact ⟨h.1, h.2.2.1 (by decide)⟩

/-- Claim C6: an identity-creation event that succeeds has run the
provisioning trigger exactly once inside the same transaction: the new
state carries exactly one extra profile row, whose id and email are the
new identity's, and the one-profile-per-identity invariant is preserved;
a failing profile insert aborts the whole event (the transaction yields
an error and no successor state). -/
theorem c6_profile_provisioning
    (now : Nat) (u : AuthUser) (st st' : DBState)
    (hinv : profilesInv st) (h : createAuthUser now u st = .ok st') :
    st'.users = st.users ++ [u] ∧
    st'.profiles = st.profiles ++ [{ id := u.id, email := u.email, created_at := now }] ∧
    profilesOf u.id st' = [{ id := u.id, email := u.email, created_at := now }] ∧
    profilesInv st' := by
  unfold createAuthUser at h
  split at h
  · exact absurd h (by simp)
  · rename_i husers
    cases heq : handle_new_user now u st.profiles with
    | error e =>
      rw [heq] at h
      exact absurd h (by simp)
    | ok ps =>
      rw [heq] at h
      simp only [Except.ok.injEq] at h
      subst h
      unfold handle_new_user at heq
      split at heq
      · exact absurd heq (by simp)
      · rename_i hprofany
        simp only [Except.ok.injEq] at heq
        subst heq
        have hpne : ∀ p ∈ st.profiles, p.id ≠ u.id := by
          intro p hp hcontra
          exact hprofany (List.any_eq_true.mpr ⟨p, hp, beq_iff_eq.mpr hcontra⟩)
        have hune : ∀ v ∈ st.users, v.id ≠ u.id := by
          intro v hv hcontra
          exact husers (List.any_eq_true.mpr ⟨v, hv, beq_iff_eq.mpr hcontra⟩)
        have hnil : st.profiles.filter (fun p => p.id == u.id) = [] :=
          List.filter_eq_nil_iff.mpr (fun p hp => by simp [hpne p hp])
        refine ⟨rfl, rfl, ?_, ?_⟩
        · simp [profilesOf, List.filter_append, hnil]
        · intro w hw
          rcases List.mem_append.mp hw with hw | hw
          · have hwne : u.id ≠ w.id := fun hcontra => hune w hw hcontra.symm
            have : profilesOf w.id
                ⟨st.users ++ [u],
                 st.profiles ++ [{ id := u.id, email := u.email, created_at := now }]⟩ =
                profilesOf w.id st := by
              simp [profilesOf, List.filter_append, hwne]
            rw [this]
            exact hinv w hw
          · rcases List.mem_singleton.mp hw with rfl
            simp [profilesOf, List.filter_append, hnil]

/-- Claim C6 witness: registering identity 1 in the empty state yields
exactly its one matching profile. -/
theorem c6_profile_provisioning_witness :
    profilesOf 1 { users := [⟨1, "u@x.io"⟩],
                   profiles := [{ id := 1, email := "u@x.io", created_at := 3 }] } =
      [{ id := 1, email := "u@x.io", created_at := 3 }] ∧
    profilesInv { users := [⟨1, "u@x.io"⟩],
                  profiles := [{ id := 1, email := "u@x.io", created_at := 3 }] } := by
  have h := c6_profile_provisioning 3 ⟨1, "u@x.io"⟩ { users := [], profiles := [] }
    { users := [⟨1, "u@x.io"⟩],
      profiles := [{ id := 1, email := "u@x.io", created_at := 3 }] }
    (by intro u hu; cases hu) (by decide)
  exact ⟨h.2.2.1, h.2.2.2⟩

/-- Claim C7: with a non-empty search term, the filtered list holds
exactly the in-memory records whose lowercased name or email contains
the lowercased term as a contiguous substring; the filter is a pure
function of the term and the set. -/
theorem c7_search_filter
    (term : String) (l : List Aluno) (a : Aluno) (hterm : term ≠ "") :
    a ∈ filterAlunos term l ↔
      a ∈ l ∧
      ((∃ u v, (jsToLower a.nome).data = u ++ (jsToLower term).data ++ v) ∨
       (∃ u v, (jsToLower a.email).data = u ++ (jsToLower term).data ++ v)) := by
  simp [filterAlunos, hterm, List.mem_filter, jsIncludes, containsSub_iff]

/-- Claim C7 witness: among `[Ana, Bruno]` the term "an" keeps exactly
`Ana` ("an" is a case-insensitive substring of "Ana"). -/
theorem c7_search_filter_witness :
    rAna ∈ filterAlunos "an" [rAna, rBruno] ∧
    filterAlunos "an" [rAna, rBruno] = [rAna] := by
  refine ⟨(c7_search_filter "an" [rAna, rBruno] rAna (by decide)).mpr
    ⟨by decide, Or.inl ⟨[], ['a'], by decide⟩⟩, by decide⟩

/-- Claim C8: inserting a record whose email is already used by any
existing record (of any identity) fails with the uniqueness error; the
view surfaces it destructively and both the stored table and the visible
list are left unchanged. -/
theorem c8_duplicate_email
    (uid now newId : Nat) (d : SubmitData) (db : List Aluno) (vs : ViewState)
    (r : Aluno) (hr : r ∈ db) (he : r.email = d.email) :
    alunosInsert uid now newId
      { nome := d.nome, email := d.email, data_nascimento := d.data_nascimento,
        created_by := uid } db = .error .uniqueViolation ∧
    (handleCreate uid now newId d db vs).1 = db ∧
    (handleCreate uid now newId d db vs).2.alunos = vs.alunos ∧
    (handleCreate uid now newId d db vs).2.toast =
      some { destructive := true, title := "Erro ao criar aluno" } := by
  have hany : db.any (fun x => x.email == d.email) = true :=
    List.any_eq_true.mpr ⟨r, hr, beq_iff_eq.mpr he⟩
  have hins : alunosInsert uid now newId
      { nome := d.nome, email := d.email, data_nascimento := d.data_nascimento,
        created_by := uid } db = .error .uniqueViolation := by
    simp [alunosInsert, alunosInsertCheck, hany]
  refine ⟨hins, ?_, ?_, ?_⟩ <;> simp [handleCreate, hins]

/-- Claim C8 witness: inserting a second record with `rAna`'s email
fails with the uniqueness error and the visible list stays `[rAna]`. -/
theorem c8_duplicate_email_witness :
    alunosInsert 1 7 12
      { nome := "Clara", email := "ana@x.io", data_nascimento := "2002-03-03",
        created_by := 1 } [rAna] = .error .uniqueViolation ∧
    (handleCreate 1 7 12 dupData [rAna] viewAna).2.alunos = [rAna] := by
  have h := c8_duplicate_email 1 7 12 dupData [rAna] viewAna rAna (by decide) (by decide)
  exact ⟨h.1, by rw [h.2.2.1]; rfl⟩

/-- Claim C9: the list operation returns exactly the caller's own
records (the SELECT policy filters to `created_by = caller`) ordered by
creation time descending. -/
theorem c9_list_owned_desc (uid : Nat) (db : List Aluno) :
    (∀ a, a ∈ fetchAlunos uid db ↔ a ∈ db ∧ a.created_by = uid) ∧
    List.Pairwise (fun x y => y.created_at ≤ x.created_at) (fetchAlunos uid db) := by
  constructor
  · intro a
    rw [fetchAlunos, orderByCreatedAtDesc, (List.perm_insertionSort _ _).mem_iff,
      alunosSelect, List.mem_filter]
    simp only [alunosSelectUsing, beq_iff_eq]
    constructor
    · rintro ⟨hmem, hcb⟩
      exact ⟨hmem, hcb.symm⟩
    · rintro ⟨hmem, hcb⟩
      exact ⟨hmem, hcb.symm⟩
  · haveI : IsTotal Aluno (fun x y => y.created_at ≤ x.created_at) :=
      ⟨fun x y => Nat.le_total y.created_at x.created_at⟩
    haveI : IsTrans Aluno (fun x y => y.created_at ≤ x.created_at) :=
      ⟨fun _ _ _ hxy hyz => Nat.le_trans hyz hxy⟩
    exact List.sorted_insertionSort _ _

/-- Claim C3 counterexample: a validated submission whose create request
fails (duplicate email) still closes the form — `handleSubmit` calls
`onOpenChange(false)` unconditionally after the callback resolves, and
`handleCreate` swallows the rejection — so the form does NOT remain open
on failure, although the failure is surfaced as a destructive toast. -/
theorem c3_counterexample :
    (validateForm dupInput).1 = true ∧
    (handleSubmit dupInput (.error .uniqueViolation)).request.isSome = true ∧
    (handleCreate 1 7 12 dupData [rAna] viewAna).2.toast =
      some { destructive := true, title := "Erro ao criar aluno" } ∧
    (handleSubmit dupInput (.error .uniqueViolation)).formOpen = false := by
  decide

/-- Claim C3 amended: once the outstanding request resolves, the form
closes whether the request succeeded or failed; a failed create or
update is surfaced to the caller as a destructive notification by the
submit callback (which leaves the visible list unchanged), not silently
dropped. -/
theorem c3_amended_always_closes
    (i : FormInput) (res : Except StoreError Unit)
    (hvalid : alunoSchemaIssues i = []) :
    (handleSubmit i res).formOpen = false ∧
    (handleSubmit i res).request.isSome = true ∧
    (∀ uid now newId d db vs e,
      alunosInsert uid now newId
        { nome := d.nome, email := d.email, data_nascimento := d.data_nascimento,
          created_by := uid } db = .error e →
      (handleCreate uid now newId d db vs).2.toast =
        some { destructive := true, title := "Erro ao criar aluno" } ∧
      (handleCreate uid now newId d db vs).2.alunos = vs.alunos) ∧
    (∀ uid now tid d db vs e,
      alunosUpdate uid now tid (clientUpdatePayload d) db = .error e →
      (handleUpdate uid now tid d db vs).2.toast =
        some { destructive := true, title := "Erro ao atualizar aluno" } ∧
      (handleUpdate uid now tid d db vs).2.alunos = vs.alunos) := by
  refine ⟨?_, ?_, ?_, ?_⟩
  · simp [handleSubmit, validateForm, hvalid]
  · simp [handleSubmit, validateForm, hvalid]
  · intro uid now newId d db vs e he
    constructor <;> simp [handleCreate, he]
  · intro uid now tid d db vs e he
    constructor <;> simp [handleUpdate, he]

/-- Claim C3 amended witness: the concrete failing submission closes the
form and the failing create leaves the view's list untouched. -/
theorem c3_amended_always_closes_witness :
    (handleSubmit dupInput (.error .uniqueViolation)).formOpen = false ∧
    (handleCreate 1 7 12 dupData [rAna] viewAna).2.alunos = viewAna.alunos := by
  have h := c3_amended_always_closes dupInput (.error .uniqueViolation) (by decide)
  exact ⟨h.1, (h.2.2.1 1 7 12 dupData [rAna] viewAna .uniqueViolation (by decide)).2⟩

/-- A raw name of 101 characters whose final character is whitespace. -/
def c4LongNome : String := ⟨List.replicate 100 'a' ++ [' ']⟩

/-- Claim C4 counterexample: validation measures the name AFTER the zod
`.trim()` transform, so a raw input name longer than 100 characters (100
letters plus a trailing blank) passes validation, produces no error, and
a network request IS issued — contradicting the claim read on the raw
input. -/
theorem c4_counterexample :
    100 < c4LongNome.length ∧
    (handleSubmit { nome := c4LongNome, email := "a@bc.de",
                    data_nascimento := "2000-01-01" } (.ok ())).request.isSome = true ∧
    (handleSubmit { nome := c4LongNome, email := "a@bc.de",
                    data_nascimento := "2000-01-01" } (.ok ())).errors = [] := by
  decide

/-- Claim C4 amended: with the field constraints read on the values the
schema actually checks — the trimmed name and trimmed email — validation
is never bypassed: if the trimmed name is empty or longer than 100
characters, or the trimmed email fails the syntax check (in particular
when empty), or the birth date is empty, the submit handler issues no
request, leaves the form open, and records exactly one error message per
invalid field (and no entry for a valid field); an empty name yields the
name-required message. -/
theorem c4_amended_validation
    (i : FormInput) (res : Except StoreError Unit)
    (hbad : (jsTrim i.nome).length = 0 ∨ 100 < (jsTrim i.nome).length ∨
            zodEmailCheck (jsTrim i.email) = false ∨ i.data_nascimento.length = 0) :
    (handleSubmit i res).request = none ∧
    (handleSubmit i res).formOpen = true ∧
    ((handleSubmit i res).errors.map Prod.fst).Nodup ∧
    (("nome" ∈ (handleSubmit i res).errors.map Prod.fst) ↔
      ((jsTrim i.nome).length = 0 ∨ 100 < (jsTrim i.nome).length)) ∧
    (("email" ∈ (handleSubmit i res).errors.map Prod.fst) ↔
      zodEmailCheck (jsTrim i.email) = false) ∧
    (("data_nascimento" ∈ (handleSubmit i res).errors.map Prod.fst) ↔
      i.data_nascimento.length = 0) ∧
    ((jsTrim i.nome).length = 0 →
      ("nome", "Nome é obrigatório") ∈ (handleSubmit i res).errors) := by
  rcases eq_or_ne (jsTrim i.nome).length 0 with h1 | h1 <;>
    by_cases h2 : 100 < (jsTrim i.nome).length <;>
    rcases Bool.dichotomy (zodEmailCheck (jsTrim i.email)) with h3 | h3 <;>
    rcases eq_or_ne i.data_nascimento.length 0 with h4 | h4 <;>
    first
      | (simp [handleSubmit, validateForm, alunoSchemaIssues, h1, h2, h3, h4,
          Nat.lt_one_iff]; done)
      | exact absurd hbad (by simp [h1, h2, h3, h4])

/-- Claim C4 amended witness: submitting with an empty name issues no
request and surfaces the name-required error. -/
theorem c4_amended_validation_witness :
    (handleSubmit { nome := "", email := "a@bc.de", data_nascimento := "2000-01-01" }
      (.ok ())).request = none ∧
    ("nome", "Nome é obrigatório") ∈
      (handleSubmit { nome := "", email := "a@bc.de", data_nascimento := "2000-01-01" }
        (.ok ())).errors := by
  have h := c4_amended_validation
    { nome := "", email := "a@bc.de", data_nascimento := "2000-01-01" } (.ok ())
    (Or.inl (by decide))
  exact ⟨h.1, h.2.2.2.2.2.2 (by decide)⟩

/-- Claim C10: a submission that passes validation sends exactly the
trimmed name and email (the birth date is passed through untrimmed), and
a name consisting only of whitespace trims to the empty string and so
fails validation with the name-required error, no request, and the form
still open. -/
theorem c10_trimmed_submission
    (i : FormInput) (res : Except StoreError Unit) :
    (alunoSchemaIssues i = [] →
      (handleSubmit i res).request =
        some { nome := jsTrim i.nome, email := jsTrim i.email,
               data_nascimento := i.data_nascimento }) ∧
    (i.nome.data.all Char.isWhitespace = true →
      (handleSubmit i res).request = none ∧
      ("nome", "Nome é obrigatório") ∈ (handleSubmit i res).errors ∧
      (handleSubmit i res).formOpen = true) := by
  constructor
  · intro hvalid
    simp [handleSubmit, validateForm, hvalid]
  · intro hws
    have h1 : i.nome.data.dropWhile Char.isWhitespace = [] :=
      List.dropWhile_eq_nil_iff.mpr (fun x hx => List.all_eq_true.mp hws x hx)
    have hlen : (jsTrim i.nome).length = 0 := by
      simp [jsTrim, h1, String.length]
    have hiss : alunoSchemaIssues i =
        ("nome", "Nome é obrigatório") ::
          ((if zodEmailCheck (jsTrim i.email) then [] else [("email", "Email inválido")]) ++
           (if i.data_nascimento.length < 1 then
             [("data_nascimento", "Data de nascimento é obrigatória")] else [])) := by
      simp [alunoSchemaIssues, hlen]
    refine ⟨?_, ?_, ?_⟩ <;> simp [handleSubmit, validateForm, hiss]

/-- Claim C10 witness: `" Ana "`/`" a@bc.de "` are sent trimmed, and an
all-whitespace name is rejected with no request issued. -/
theorem c10_trimmed_submission_witness :
    (handleSubmit { nome := " Ana ", email := " a@bc.de ",
                    data_nascimento := "2000-01-01" } (.ok ())).request =
      some { nome := "Ana", email := "a@bc.de", data_nascimento := "2000-01-01" } ∧
    (handleSubmit { nome := "   ", email := "a@bc.de",
                    data_nascimento := "2000-01-01" } (.ok ())).request = none := by
  have h1 := (c10_trimmed_submission
    { nome := " Ana ", email := " a@bc.de ", data_nascimento := "2000-01-01" }
    (.ok ())).1 (by decide)
  have h2 := (c10_trimmed_submission
    { nome := "   ", email := "a@bc.de", data_nascimento := "2000-01-01" }
    (.ok ())).2 (by decide)
  exact ⟨by rw [h1]; decide, h2.1⟩
